import Mathlib

/-!
Shallow embedding of the traffic-light controller in
src/traffic_controller.cpp, together with proofs of the specification
claims about it.  Pure functions of the source become Lean functions;
the shared mutable state becomes an explicit record; the two threads
become explicit state-transforming steps; the asynchronous `running`
flag observed by the hold loop becomes a stream of boolean
observations indexed by check number.
-/

namespace Traffic

/-- Traffic light colors, from `enum class Light` (line 21). -/
inductive Light where
  | Red
  | Yellow
  | Green
deriving DecidableEq, Repr

/-- Controller phases, from `enum class Phase` (lines 22-30). -/
inductive Phase where
  | NS_Green
  | NS_Yellow
  | All_Red_1
  | EW_Green
  | EW_Yellow
  | All_Red_2
  | Ped_Walk
deriving DecidableEq, Repr

open Light Phase

/-- The three outputs written by `computeLights`: the NS light, the EW
light and the pedestrian WALK indicator. -/
structure Lights where
  ns : Light
  ew : Light
  walkOn : Bool
deriving DecidableEq, Repr

/-- `computeLights` (lines 89-106): maps the current phase to light
outputs and the pedestrian WALK indicator.  `walkOn` starts `false`
and is set only in the `Ped_Walk` case. -/
def computeLights : Phase → Lights
  | NS_Green => ⟨Green, Red, false⟩
  | NS_Yellow => ⟨Yellow, Red, false⟩
  | EW_Green => ⟨Red, Green, false⟩
  | EW_Yellow => ⟨Red, Yellow, false⟩
  | All_Red_1 => ⟨Red, Red, false⟩
  | All_Red_2 => ⟨Red, Red, false⟩
  | Ped_Walk => ⟨Red, Red, true⟩

/-- The `Config` struct (lines 43-50): the six `int` fields for how
long the light cycles will be, in source order. -/
structure Config where
  nsGreenSec : Int
  nsYellowSec : Int
  ewGreenSec : Int
  ewYellowSec : Int
  allRedSec : Int
  pedWalkSec : Int
deriving DecidableEq, Repr

/-- The default member initializers of `Config` (lines 44-49), as used
by `main` (line 227), which constructs `Config cfg;` unchanged. -/
def defaultConfig : Config := ⟨10, 3, 10, 3, 1, 6⟩

/-- `durationForPhase` (lines 109-120): the hold duration in seconds
for each phase; both all-red phases share `allRedSec`. -/
def durationForPhase (cfg : Config) : Phase → Int
  | NS_Green => cfg.nsGreenSec
  | NS_Yellow => cfg.nsYellowSec
  | All_Red_1 => cfg.allRedSec
  | EW_Green => cfg.ewGreenSec
  | EW_Yellow => cfg.ewYellowSec
  | All_Red_2 => cfg.allRedSec
  | Ped_Walk => cfg.pedWalkSec

/-- `nextNormalPhase` (lines 123-136): normal phase progression
without the pedestrian override; after the walk phase the cycle
resumes at `NS_Green`. -/
def nextNormalPhase : Phase → Phase
  | NS_Green => NS_Yellow
  | NS_Yellow => All_Red_1
  | All_Red_1 => EW_Green
  | EW_Green => EW_Yellow
  | EW_Yellow => All_Red_2
  | All_Red_2 => NS_Green
  | Ped_Walk => NS_Green

/-- The mutable fields of `SharedState` (lines 53-67): current phase,
the pedestrian-request flag, the atomic `running` flag and the
reporting tick. -/
structure CtrlState where
  phase : Phase
  pedRequested : Bool
  running : Bool
  tick : Nat
deriving DecidableEq, Repr

/-- The in-class initializers of `SharedState` (lines 57-66):
`phase = NS_Green`, `pedRequested = false`, `running = true`,
`tick = 0`. -/
def initState : CtrlState := ⟨NS_Green, false, true, 0⟩

/-- The phase-boundary mutation performed by `controllerThread` under
the lock (lines 184-197): if at an all-red phase with a pedestrian
request pending, consume the request and enter `Ped_Walk`; otherwise
advance to the normal successor. -/
def applyTransition (s : CtrlState) : CtrlState :=
  let atAllRed := s.phase == All_Red_1 || s.phase == All_Red_2
  if atAllRed && s.pedRequested then
    ⟨Ped_Walk, false, s.running, s.tick⟩
  else
    ⟨nextNormalPhase s.phase, s.pedRequested, s.running, s.tick⟩

/-- The pedestrian-request mutation of `inputThread` on input line
`p` (lines 213-216): set `pedRequested` under the lock, touching
nothing else. -/
def requestPed (s : CtrlState) : CtrlState :=
  ⟨s.phase, true, s.running, s.tick⟩

/-- Modelled from the spec, for comparison with `applyTransition`:
step 4 of section 4.2 as the spec words it — under exclusive access,
if the current phase is one of the two All-Red phases AND the pending
flag is true, clear the flag and set the phase to `Ped_Walk`;
otherwise set the phase to the normal successor of the current
phase. -/
def specStep4 (s : CtrlState) : CtrlState :=
  if (s.phase = All_Red_1 ∨ s.phase = All_Red_2) ∧ s.pedRequested = true then
    ⟨Ped_Walk, false, s.running, s.tick⟩
  else
    ⟨nextNormalPhase s.phase, s.pedRequested, s.running, s.tick⟩

/-- Interleaving of the two threads at the shared-state level: the
input thread queues a pedestrian request at an arbitrary time, or the
controller thread applies a phase-boundary transition. -/
inductive Step : CtrlState → CtrlState → Prop where
  | ped (s : CtrlState) : Step s (requestPed s)
  | ctrl (s : CtrlState) : Step s (applyTransition s)

/-- States reachable from the initial state under any interleaving of
pedestrian-request injections and controller steps. -/
def Reachable (s : CtrlState) : Prop :=
  Relation.ReflTransGen Step initState s

/-- The interruptible hold loop of `controllerThread` (lines 176-179):
at iteration `i` the loop first loads `running` (observation
`running i`); if it is false the thread returns at once, otherwise it
sleeps one second and continues.  `rem` is the number of loop
iterations left; the result is `some i` when the loop returned early
at check `i` (having slept exactly `i` one-second slices), or `none`
when all slices were slept and control reaches the transition
block. -/
def holdLoop (running : Nat → Bool) (i : Nat) : Nat → Option Nat
  | 0 => none
  | rem + 1 => if running i then holdLoop running (i + 1) rem else some i

/-- One iteration of the `while` body of `controllerThread` (lines
158-198) after the snapshot: hold the current phase for `holdSec`
one-second slices, loading `running` before each slice; on an early
exit the thread returns having mutated nothing (`none`), otherwise it
applies the phase-boundary transition of lines 184-197. -/
def controllerIterate (running : Nat → Bool) (holdSec : Int)
    (s : CtrlState) : Option CtrlState :=
  match holdLoop running 0 holdSec.toNat with
  | some _ => none
  | none => some (applyTransition s)

/-- Tests whether an input line is one of the quit commands of
`inputThread` (line 209). -/
def isQuitLine (l : String) : Bool :=
  l == "q" || l == "quit" || l == "exit"

/-- The loop of `inputThread` (lines 207-222) over the finite list of
lines that `std::getline` will deliver; when the list is exhausted,
`getline` fails (end of input) and the loop exits.  Line 221 stores
`false` into `running` after the loop on every exit path; the `while`
condition (line 208) checks `running` before attempting to read a
line. -/
def inputLoop (s : CtrlState) : List String → CtrlState
  | [] => ⟨s.phase, s.pedRequested, false, s.tick⟩
  | l :: rest =>
    if s.running = false then
      ⟨s.phase, s.pedRequested, false, s.tick⟩
    else if isQuitLine l then
      ⟨s.phase, s.pedRequested, false, s.tick⟩
    else if l == "p" then
      inputLoop (requestPed s) rest
    else
      inputLoop s rest

/-! Helper lemmas. -/

/-- The normal successor is never the walk phase. -/
theorem nextNormalPhase_ne_pedWalk (p : Phase) : nextNormalPhase p ≠ Ped_Walk := by
  cases p <;> simp [nextNormalPhase]

/-- `inputLoop` stores `false` into `running` on every exit path. -/
theorem inputLoop_running_false (ls : List String) (s : CtrlState) :
    (inputLoop s ls).running = false := by
  induction ls generalizing s with
  | nil => rfl
  | cons l rest ih =>
    simp only [inputLoop]
    split
    · rfl
    · split
      · rfl
      · split
        · exact ih (requestPed s)
        · exact ih s

/-- If `running` is observed false at an in-range check, the hold loop
returns early at the first such check, which is no later. -/
theorem holdLoop_early (running : Nat → Bool) :
    ∀ rem i₀ k, k < rem → running (i₀ + k) = false →
      ∃ j, j ≤ i₀ + k ∧ holdLoop running i₀ rem = some j := by
  intro rem
  induction rem with
  | zero => intro i₀ k hk hf; omega
  | succ n ih =>
    intro i₀ k hk hf
    by_cases h : running i₀ = true
    · cases k with
      | zero =>
        rw [Nat.add_zero] at hf
        rw [hf] at h
        cases h
      | succ m =>
        obtain ⟨j, hj, hl⟩ := ih (i₀ + 1) m (by omega)
          (by rw [show i₀ + 1 + m = i₀ + (m + 1) by omega]; exact hf)
        exact ⟨j, by omega, by rw [holdLoop, h, if_pos rfl]; exact hl⟩
    · exact ⟨i₀, Nat.le_add_right _ _,
        by rw [holdLoop, Bool.not_eq_true] at *; rw [h]; rfl⟩

/-- A concrete run servicing a pedestrian request: from the initial
state, a request arrives during `NS_Green`, survives `NS_Yellow`, and
is consumed at the `All_Red_1` boundary, entering `Ped_Walk`. -/
theorem reach_pedWalk : Reachable ⟨Ped_Walk, false, true, 0⟩ := by
  have h0 : Reachable initState := Relation.ReflTransGen.refl
  have h1 : Reachable ⟨NS_Green, true, true, 0⟩ := h0.tail (Step.ped initState)
  have h2 : Reachable ⟨NS_Yellow, true, true, 0⟩ :=
    h1.tail (Step.ctrl ⟨NS_Green, true, true, 0⟩)
  have h3 : Reachable ⟨All_Red_1, true, true, 0⟩ :=
    h2.tail (Step.ctrl ⟨NS_Yellow, true, true, 0⟩)
  exact h3.tail (Step.ctrl ⟨All_Red_1, true, true, 0⟩)

/-! Claims. -/

/-- Claim C1: in every execution of the controller step relation, the
phase `Ped_Walk` is entered only as the direct successor of
`All_Red_1` or `All_Red_2`, never as the successor of any Green or
Yellow phase, and only when `pedRequested` was true at the instant of
that all-red-to-next transition. -/
theorem pedWalk_entered_only_from_allRed (s t : CtrlState) (hstep : Step s t)
    (henter : t.phase = Ped_Walk) (hnot : s.phase ≠ Ped_Walk) :
    (s.phase = All_Red_1 ∨ s.phase = All_Red_2) ∧ s.pedRequested = true := by
  obtain ⟨p, b, r, k⟩ := s
  cases hstep with
  | ped => exact absurd henter hnot
  | ctrl =>
    cases p <;> cases b <;>
      simp_all [applyTransition, nextNormalPhase]

/-- Witness for C1: the all-red-with-pending state steps into
`Ped_Walk`, and the theorem applies to that step. -/
theorem pedWalk_entered_only_from_allRed_witness :
    ((⟨All_Red_1, true, true, 0⟩ : CtrlState).phase = All_Red_1 ∨
      (⟨All_Red_1, true, true, 0⟩ : CtrlState).phase = All_Red_2) ∧
      (⟨All_Red_1, true, true, 0⟩ : CtrlState).pedRequested = true :=
  pedWalk_entered_only_from_allRed ⟨All_Red_1, true, true, 0⟩
    (applyTransition ⟨All_Red_1, true, true, 0⟩)
    (Step.ctrl ⟨All_Red_1, true, true, 0⟩) (by decide) (by decide)

/-- Claim C2: the phase-boundary transition applied by the controller
thread is exactly the spec's step 4 — if the current phase is
`All_Red_1` or `All_Red_2` and the pending flag is true, clear the
flag and enter `Ped_Walk`; in every other case move to the normal
successor with the flag unchanged. -/
theorem applyTransition_eq_specStep4 (s : CtrlState) :
    applyTransition s = specStep4 s := by
  obtain ⟨p, b, r, k⟩ := s
  cases p <;> cases b <;> rfl

/-- Claim C3: every state reachable from the initial state under any
interleaving of pedestrian-request injections and controller steps
renders safely — whenever `computeLights` reports the walk indicator
on, both the NS and EW lights are `Red`. -/
theorem reachable_no_walk_with_green_or_yellow (s : CtrlState)
    (hreach : Reachable s) (hwalk : (computeLights s.phase).walkOn = true) :
    (computeLights s.phase).ns = Red ∧ (computeLights s.phase).ew = Red := by
  cases h : s.phase <;> simp_all [computeLights]

/-- Witness for C3: the `Ped_Walk` state reached by the concrete run
of `reach_pedWalk` renders both directions `Red`. -/
theorem reachable_no_walk_with_green_or_yellow_witness :
    (computeLights (⟨Ped_Walk, false, true, 0⟩ : CtrlState).phase).ns = Red ∧
      (computeLights (⟨Ped_Walk, false, true, 0⟩ : CtrlState).phase).ew = Red :=
  reachable_no_walk_with_green_or_yellow ⟨Ped_Walk, false, true, 0⟩
    reach_pedWalk (by decide)

/-- Counterexample to claim C4 as stated.  The hold loop of lines
176-179 loads `running` BEFORE each 1-second sleep, not after it, and
no check separates the final sleep from the transition block of lines
184-197.  Observation index `i` is the instant of the i-th in-loop
check; index `holdSec` is the instant after the final sleep, when the
transition block runs.  With a hold of one slice and `running` becoming
false during that final slice (true at check 0, false from index 1 on),
the claim says the controller returns without performing a further
phase mutation; instead the iteration completes and mutates the phase:
`controllerIterate` returns the advanced state, not `none`. -/
theorem hold_final_slice_counterexample :
    (fun i => decide (i < 1)) (1 : Int).toNat = false ∧
      controllerIterate (fun i => decide (i < 1)) 1 initState =
        some ⟨NS_Yellow, false, true, 0⟩ := by
  constructor
  · rfl
  · rfl

/-- Claim C4, amended: the controller checks the `running` flag before
each 1-second sleep increment of the hold and returns immediately —
skipping the phase-transition step — when the flag is observed false
at such a check, returning at the first false observation (at check
`j ≤ i`, having slept only `j` slices).  Once `running` is false the
controller therefore terminates within one sleep-slice unit, never
waiting out the full remaining phase duration; only if `running`
becomes false during the hold's final slice is the already-scheduled
phase transition still performed before termination. -/
theorem hold_early_return_skips_transition (running : Nat → Bool)
    (holdSec : Int) (s : CtrlState) (i : Nat)
    (hi : i < holdSec.toNat) (hr : running i = false) :
    ∃ j, j ≤ i ∧ holdLoop running 0 holdSec.toNat = some j ∧
      controllerIterate running holdSec s = none := by
  obtain ⟨j, hj, hl⟩ :=
    holdLoop_early running holdSec.toNat 0 i hi (by simpa using hr)
  exact ⟨j, by omega, hl, by simp [controllerIterate, hl]⟩

/-- Witness for the amended C4: with `running` false from the start of
a 5-second hold, the loop returns at check 0 with no sleeps and no
phase mutation. -/
theorem hold_early_return_skips_transition_witness :
    (0 < (5 : Int).toNat ∧ (fun _ => false : Nat → Bool) 0 = false) ∧
      ∃ j, j ≤ 0 ∧ holdLoop (fun _ => false) 0 (5 : Int).toNat = some j ∧
        controllerIterate (fun _ => false) 5 initState = none :=
  ⟨⟨by decide, rfl⟩,
    hold_early_return_skips_transition (fun _ => false) 5 initState 0
      (by decide) rfl⟩

/-- Claim C5: restricted to the six non-walk phases, the normal
successor is the fixed 6-cycle
`NS_Green → NS_Yellow → All_Red_1 → EW_Green → EW_Yellow → All_Red_2 → NS_Green`;
in particular six applications from `NS_Green` return `NS_Green`. -/
theorem nextNormalPhase_six_cycle :
    nextNormalPhase NS_Green = NS_Yellow ∧
    nextNormalPhase NS_Yellow = All_Red_1 ∧
    nextNormalPhase All_Red_1 = EW_Green ∧
    nextNormalPhase EW_Green = EW_Yellow ∧
    nextNormalPhase EW_Yellow = All_Red_2 ∧
    nextNormalPhase All_Red_2 = NS_Green ∧
    nextNormalPhase^[6] NS_Green = NS_Green := by
  decide

/-- Claim C6: the normal successor of `Ped_Walk` is `NS_Green` — after
a pedestrian service the cycle restarts from the beginning, regardless
of which all-red slot triggered the walk phase. -/
theorem nextNormalPhase_pedWalk : nextNormalPhase Ped_Walk = NS_Green := rfl

/-- Claim C7: `computeLights` realizes exactly the spec's light table
for all seven phases. -/
theorem computeLights_table :
    computeLights NS_Green = ⟨Green, Red, false⟩ ∧
    computeLights NS_Yellow = ⟨Yellow, Red, false⟩ ∧
    computeLights All_Red_1 = ⟨Red, Red, false⟩ ∧
    computeLights EW_Green = ⟨Red, Green, false⟩ ∧
    computeLights EW_Yellow = ⟨Red, Yellow, false⟩ ∧
    computeLights All_Red_2 = ⟨Red, Red, false⟩ ∧
    computeLights Ped_Walk = ⟨Red, Red, true⟩ := by
  decide

/-- Claim C8: setting the pedestrian-request flag while it is already
set leaves the entire controller state unchanged — a second request
before the first is serviced has no additional effect. -/
theorem requestPed_idempotent (s : CtrlState)
    (h : s.pedRequested = true) : requestPed s = s := by
  obtain ⟨p, b, r, k⟩ := s
  cases h
  rfl

/-- Witness for C8: a concrete state with the flag already set is
unchanged by a further request. -/
theorem requestPed_idempotent_witness :
    (⟨NS_Green, true, true, 0⟩ : CtrlState).pedRequested = true ∧
      requestPed ⟨NS_Green, true, true, 0⟩ = ⟨NS_Green, true, true, 0⟩ :=
  ⟨rfl, requestPed_idempotent ⟨NS_Green, true, true, 0⟩ rfl⟩

/-- Claim C9: with the default configuration the hold durations are
`NS_Green = 10`, `NS_Yellow = 3`, `EW_Green = 10`, `EW_Yellow = 3`,
`Ped_Walk = 6`, and the two all-red slots share the single `allRedSec`
duration of 1; all six configuration fields are positive. -/
theorem defaultConfig_durations :
    durationForPhase defaultConfig NS_Green = 10 ∧
    durationForPhase defaultConfig NS_Yellow = 3 ∧
    durationForPhase defaultConfig EW_Green = 10 ∧
    durationForPhase defaultConfig EW_Yellow = 3 ∧
    durationForPhase defaultConfig Ped_Walk = 6 ∧
    durationForPhase defaultConfig All_Red_1 = defaultConfig.allRedSec ∧
    durationForPhase defaultConfig All_Red_2 = defaultConfig.allRedSec ∧
    defaultConfig.allRedSec = 1 ∧
    0 < defaultConfig.nsGreenSec ∧ 0 < defaultConfig.nsYellowSec ∧
    0 < defaultConfig.ewGreenSec ∧ 0 < defaultConfig.ewYellowSec ∧
    0 < defaultConfig.allRedSec ∧ 0 < defaultConfig.pedWalkSec := by
  decide

/-- Claim C10: if the input stream ends without any quit command
having been entered, the input loop exits and stores `false` into
`running` — the same clean shutdown an explicit quit line produces. -/
theorem input_eof_sets_running_false (ls : List String) (s : CtrlState)
    (h : ∀ l ∈ ls, isQuitLine l = false) :
    (inputLoop s ls).running = false ∧
      (inputLoop s ["q"]).running = false :=
  ⟨inputLoop_running_false ls s, inputLoop_running_false ["q"] s⟩

/-- Witness for C10: a stream of two non-quit lines, then end of
input, leaves `running` false. -/
theorem input_eof_sets_running_false_witness :
    (∀ l ∈ (["p", "x"] : List String), isQuitLine l = false) ∧
      ((inputLoop initState ["p", "x"]).running = false ∧
        (inputLoop initState ["q"]).running = false) :=
  ⟨by decide, input_eof_sets_running_false ["p", "x"] initState (by decide)⟩

end Traffic
